import Mathlib

/-!
# Verification of the butcher fastq trimmer

A shallow embedding of `src/main.rs` (the pipeline driver, the fastq
decoder and the configuration logic of `main`), together with a model of
the `TrimResult` composition algebra.  The crate modules `trimmers` and
`primers` are not part of the available sources, so the `TrimResult`
value type, its merge, and the materialization `trim_results_to_reads`
are modelled from the specification (§3, §4.1, §4.4); everything else is
translated directly from `src/main.rs`.

Bytes are modelled as `Nat` (the Rust code never performs `u8` overflow
arithmetic in the embedded fragments).  Floating-point configuration
values (`f64` proportions) are embedded as `ℚ`; no embedded claim
depends on their rounding.
-/

namespace Butcher

/-- `FastqRecord` from `src/main.rs`: a simple FASTQ record with name,
sequence, and quality, each a byte sequence. -/
structure FastqRecord where
  name : List Nat
  seq : List Nat
  quals : List Nat
deriving DecidableEq, Repr

/-- Modelled from the spec: the Trim Proposal / Trim Decision value type
(`TrimResult` of the missing `trimmers` module): a front cut length, a
back cut length, an optional internal split point, and a drop flag. -/
structure TrimResult where
  front_cut : Nat
  back_cut : Nat
  split_point : Option Nat
  drop : Bool
deriving DecidableEq, Repr

/-- Modelled from the spec: `TrimResult::from_read` — the neutral
starting accumulator for a record's fold, the all-zero no-op proposal
(a strategy that finds nothing proposes `front_cut = back_cut = 0`,
`drop = false`). -/
def TrimResult.from_read (_read : FastqRecord) : TrimResult :=
  ⟨0, 0, none, false⟩

/-- Modelled from the spec: `keep = false` if and only if some proposal
set `drop = true` and no proposal set a `split_point` (a split point
takes precedence over a simultaneous drop). -/
def TrimResult.keep (t : TrimResult) : Bool :=
  !(t.drop && t.split_point.isNone)

/-- Modelled from the spec: the binary merge underlying
`TrimResult::join` — retained span is the intersection of the two
retained spans (`front_cut`/`back_cut` take the max), `drop` accumulates
disjunctively, and at most one split point is honored (the first one
present). -/
def TrimResult.merge (a b : TrimResult) : TrimResult :=
  { front_cut := max a.front_cut b.front_cut
    back_cut := max a.back_cut b.back_cut
    split_point := a.split_point.or b.split_point
    drop := a.drop || b.drop }

/-- Modelled from the spec: `TrimResult::join` folds a sequence of
proposals with the merge, starting from the no-op proposal.  (The extra
`&true` argument passed at every call site in `src/main.rs` has no
recoverable meaning from the available sources and the spec describes a
single max/intersection composition, so it is not modelled.) -/
def TrimResult.join (l : List TrimResult) : TrimResult :=
  l.foldl TrimResult.merge ⟨0, 0, none, false⟩

/-- The slice retained after removing `front` symbols from the start and
`back` symbols from the end (empty when the cuts overlap, which is the
clamping behaviour the spec requires of materialization). -/
def sliceKeep (xs : List Nat) (front back : Nat) : List Nat :=
  (xs.drop front).take (xs.length - front - back)

/-- Modelled from the spec: `trim_results_to_reads` (materialization,
§4.4).  `keep = false` yields no fragment; a split point yields two
fragments, each identifier extended with a positional suffix, the
front/back cuts applied before the split divides the retained span;
otherwise exactly one fragment. -/
def TrimResult.trim_results_to_reads (t : TrimResult) (r : FastqRecord) :
    List FastqRecord :=
  if t.keep = false then []
  else
    match t.split_point with
    | none =>
        [⟨r.name, sliceKeep r.seq t.front_cut t.back_cut,
          sliceKeep r.quals t.front_cut t.back_cut⟩]
    | some p =>
        let seqKept := sliceKeep r.seq t.front_cut t.back_cut
        let qualKept := sliceKeep r.quals t.front_cut t.back_cut
        let boundary := p - t.front_cut
        [⟨r.name ++ [45, 49], seqKept.take boundary, qualKept.take boundary⟩,
         ⟨r.name ++ [45, 50], seqKept.drop boundary, qualKept.drop boundary⟩]

/-! ## The fastq decoder (`FastqInputFile::next`, src/main.rs:115-165) -/

/-- One outcome of `BufRead::read_line` on the stream: either a
successfully read raw line (bytes, trailing terminator included when the
line has one), or an I/O / encoding error (`Err`). -/
inductive LineRead where
  | lineOk (bytes : List Nat)
  | lineErr
deriving DecidableEq, Repr

/-- `read_line` against a modelled stream: at end of stream it succeeds
with an empty buffer (Rust returns `Ok(0)` and leaves the string empty),
otherwise it consumes the head entry.  `none` models `Err(_)`. -/
def readLine : List LineRead → Option (List Nat) × List LineRead
  | [] => (some [], [])
  | .lineOk bs :: rest => (some bs, rest)
  | .lineErr :: rest => (none, rest)

/-- `FastqInputFile::next` (src/main.rs:118-164).  `Except.error`
models the `assert_eq!(name[0], b'@')` panic; `.ok (none, _)` models
`return None` (a read error on any of the four lines, or a genuinely
empty name line at end of stream); `.ok (some r, rest)` yields the
decoded record and the not-yet-consumed stream.  Byte 64 is `b'@'`;
`List.dropLast` is the `pop()` dropping the line terminator. -/
def fastqNext (stream : List LineRead) :
    Except Unit (Option FastqRecord × List LineRead) :=
  match readLine stream with
  | (none, rest) => .ok (none, rest)
  | (some name, rest) =>
    if name = [] then .ok (none, rest)
    else if name.head? ≠ some 64 then .error ()
    else
      match readLine rest with
      | (none, rest2) => .ok (none, rest2)
      | (some seq, rest2) =>
        match readLine rest2 with
        | (none, rest3) => .ok (none, rest3)
        | (some _orient, rest3) =>
          match readLine rest3 with
          | (none, rest4) => .ok (none, rest4)
          | (some quals, rest4) =>
              .ok (some ⟨name.dropLast, seq.dropLast, quals.dropLast⟩, rest4)

/-! ## The pipeline drivers (`single_end`, `paired_end`) -/

/-- The per-record fold of both drivers (src/main.rs:225-231 and
269-275): starting from `TrimResult::from_read`, each configured cutter
contributes its proposal through `TrimResult::join`. -/
def composeCuts (cutters : List (FastqRecord → TrimResult))
    (read : FastqRecord) : TrimResult :=
  cutters.foldl (fun base_cuts c => TrimResult.join [base_cuts, c read])
    (TrimResult.from_read read)

/-- `single_end` (src/main.rs:218-250), abstracted over the output sink:
the returned list is the sequence of records written (or previewed), in
order.  A record's fragments are emitted only when the composed decision
keeps the record and the fragment meets the minimum length. -/
def single_end (reads : List FastqRecord)
    (cutters : List (FastqRecord → TrimResult))
    (minimum_remaining_read_size : Nat) : List FastqRecord :=
  (reads.map (fun read1 =>
    let base_cuts := composeCuts cutters read1
    if base_cuts.keep then
      (base_cuts.trim_results_to_reads read1).filter
        (fun r => minimum_remaining_read_size ≤ r.seq.length)
    else [])).flatten

/-- The observable outcome of a `paired_end` run: the pairs written (in
order, first component to output 1, second to output 2) and, when the
run panicked, the name of the read of stream 1 named in the panic
message (`none` when the run completed). -/
structure PairedOutcome where
  emitted : List (FastqRecord × FastqRecord)
  error : Option (List Nat)
deriving DecidableEq, Repr

/-- `paired_end` (src/main.rs:252-304).  One record is read from each
stream per iteration; exhaustion of stream 2 while stream 1 still has a
record is the `panic!` of line 262, and unequal materialized fragment
counts are the `assert_eq!` of line 279: both end the run at once with
no further output.  The loop ends normally when stream 1 is exhausted. -/
def paired_end : List FastqRecord → List FastqRecord →
    List (FastqRecord → TrimResult) → Nat → PairedOutcome
  | [], _, _, _ => ⟨[], none⟩
  | read1 :: _, [], _, _ => ⟨[], some read1.name⟩
  | read1 :: rest1, read2 :: rest2, cutters, minimum_remaining_read_size =>
      let base_cuts_read1 := composeCuts cutters read1
      let base_cuts_read2 := composeCuts cutters read2
      let resulting_reads1 := base_cuts_read1.trim_results_to_reads read1
      let resulting_reads2 := base_cuts_read2.trim_results_to_reads read2
      if resulting_reads1.length = resulting_reads2.length then
        let pairs := (resulting_reads1.zip resulting_reads2).filter
          (fun pr => minimum_remaining_read_size ≤ pr.1.seq.length
            && minimum_remaining_read_size ≤ pr.2.seq.length)
        let tail := paired_end rest1 rest2 cutters minimum_remaining_read_size
        ⟨pairs ++ tail.emitted, tail.error⟩
      else ⟨[], some read1.name⟩

/-! ## Configuration and `main` (src/main.rs:22-216) -/

/-- The `Args` structure (src/main.rs:22-87).  `f64` proportion fields
are embedded as `ℚ`; no embedded claim depends on their rounding. -/
structure Args where
  fastq1 : Option String
  fastq2 : Option String
  out_fastq1 : Option String
  out_fastq2 : Option String
  minimum_remaining_read_size : Nat
  window_min_qual_score : Nat
  window_size : Nat
  trim_poly_a : Bool
  trim_poly_g : Bool
  trim_poly_x_length : Nat
  trim_poly_x_proportion : ℚ
  primers : Option String
  primers_max_mismatch_distance : Nat
  primers_end_proportion : ℚ
  split_on_internal_primers : Bool
  preview : Bool

/-- The configuration of one element of the `Vec<Box<dyn FastqTrimmer>>`
that `main` assembles (src/main.rs:180-214): a primer trimmer, a poly-X
trimmer, a tail-only quality-window trimmer (`BackTrimmer`), or a
head-and-tail quality-window trimmer (`FrontBackTrimmer`). -/
inductive CutterCfg where
  | primer (primers : List (List Nat)) (max_mismatch : Nat)
      (end_proportion : ℚ) (split : Bool)
  | polyX (window_size : Nat) (minimum_g_proportion : ℚ) (bases : List Nat)
  | back (window_size : Nat) (window_min_qual_score : Nat)
      (qual_score_base : Nat)
  | frontBack (window_size : Nat) (window_min_qual_score : Nat)
      (qual_score_base : Nat)
deriving DecidableEq, Repr

/-- The `qual_score_base` field of a quality-window cutter
configuration (`none` for the other cutter kinds). -/
def CutterCfg.qualScoreBase : CutterCfg → Option Nat
  | .back _ _ b => some b
  | .frontBack _ _ b => some b
  | _ => none

/-- The comma-splitting of the `--primers` argument
(src/main.rs:184), each primer as its byte sequence. -/
def splitPrimers (ps : String) : List (List Nat) :=
  (ps.splitOn ",").map (fun s => s.toList.map Char.toNat)

/-- The quality-window cutter `main` appends last (src/main.rs:208-214):
`BackTrimmer` with `qual_score_base: 32` when `--fastq2` is given
(paired mode), `FrontBackTrimmer` with `qual_score_base: 32` otherwise.
Bytes 65/97 are `A`/`a`, 71/103 are `G`/`g`. -/
def windowCutter (args : Args) : CutterCfg :=
  if args.fastq2.isSome then
    .back args.window_size args.window_min_qual_score 32
  else
    .frontBack args.window_size args.window_min_qual_score 32

/-- The ordered cutter list `main` assembles (src/main.rs:180-214):
optional primer trimmer, optional poly-A trimmer, optional poly-G
trimmer, then the mode-determined quality-window trimmer. -/
def mainCutters (args : Args) : List CutterCfg :=
  (match args.primers with
    | some ps => [CutterCfg.primer (splitPrimers ps)
        args.primers_max_mismatch_distance args.primers_end_proportion
        args.split_on_internal_primers]
    | none => [])
  ++ (if args.trim_poly_a then
        [CutterCfg.polyX args.trim_poly_x_length
          args.trim_poly_x_proportion [65, 97]] else [])
  ++ (if args.trim_poly_g then
        [CutterCfg.polyX args.trim_poly_x_length
          args.trim_poly_x_proportion [71, 103]] else [])
  ++ [windowCutter args]

/-- `color_qual_proportion` (src/main.rs:332-335).  `Except.error`
models the `assert!(quality >= 33)` panic.  The clamped rescaling
`((min q 93) - 33) / (93 - 33) * 255` is computed exactly over `ℚ`
(the source computes it in `f64` and truncates to `u8`; the rescaled
value is presentation-only and no claim depends on its rounding). -/
def color_qual_proportion (quality : Nat) : Except Unit ℚ :=
  if quality < 33 then .error ()
  else .ok ((((min quality 93 : Nat) : ℚ) - 33) / ((93 : ℚ) - 33) * 255)

/-- `readLine` always leaves the tail of the stream. -/
lemma readLine_snd (s : List LineRead) : (readLine s).2 = s.tail := by
  rcases s with _ | ⟨head, tail⟩
  · rfl
  · cases head <;> rfl

/-- `readLine` at a successfully read head entry. -/
lemma readLine_ok (bs : List Nat) (rest : List LineRead) :
    readLine (.lineOk bs :: rest) = (some bs, rest) := rfl

/-- A successfully decoded record consumes at least one stream entry. -/
lemma fastqNext_some_lt {s rest : List LineRead} {r : FastqRecord}
    (h : fastqNext s = .ok (some r, rest)) : rest.length < s.length := by
  rcases s with _ | ⟨head, tail⟩
  · simp [fastqNext, readLine] at h
  · cases head with
    | lineErr => simp [fastqNext, readLine] at h
    | lineOk name =>
      rw [fastqNext] at h
      rcases h2 : readLine tail with ⟨o2, rest2⟩
      have hr2 : rest2 = tail.tail := by
        have := readLine_snd tail; rw [h2] at this; exact this
      simp only [readLine_ok, h2] at h
      split at h
      · simp at h
      · split at h
        · simp at h
        · cases o2 with
          | none => simp at h
          | some seq =>
            rcases h3 : readLine rest2 with ⟨o3, rest3⟩
            have hr3 : rest3 = rest2.tail := by
              have := readLine_snd rest2; rw [h3] at this; exact this
            simp only [h3] at h
            cases o3 with
            | none => simp at h
            | some orient =>
              rcases h4 : readLine rest3 with ⟨o4, rest4⟩
              have hr4 : rest4 = rest3.tail := by
                have := readLine_snd rest3; rw [h4] at this; exact this
              simp only [h4] at h
              cases o4 with
              | none => simp at h
              | some quals =>
                simp only [Except.ok.injEq, Prod.mk.injEq] at h
                have hrest : rest = rest4 := h.2.symm
                subst hrest; subst hr4; subst hr3; subst hr2
                simp only [List.length_cons, List.length_tail]
                omega

/-- The eager decoding of a whole stream through `fastqNext` (the Rust
side decodes lazily through the `Iterator`; the drivers stop at the
first `None`, so the record list seen by a driver is this one.
`Except.error` propagates the decoder's assertion panic). -/
def decodeStream (s : List LineRead) : Except Unit (List FastqRecord) :=
  match h : fastqNext s with
  | .error e => .error e
  | .ok (none, _) => .ok []
  | .ok (some r, rest) =>
      match decodeStream rest with
      | .error e => .error e
      | .ok rs => .ok (r :: rs)
termination_by s.length
decreasing_by exact fastqNext_some_lt h

/-- The ways the embedded `main` can abort: the startup
`assert!(args.preview ^ args.out_fastq1.is_some())` (src/main.rs:173),
the decoder's `assert_eq!(name[0], b'@')`, or a paired-end
desynchronization panic carrying the offending read name. -/
inductive MainError where
  | startupConflict
  | decodeAssert
  | desync (name : List Nat)
deriving DecidableEq, Repr

/-- What a completed run emitted. -/
inductive RunOutput where
  | single (emitted : List FastqRecord)
  | paired (emitted : List (FastqRecord × FastqRecord))
deriving DecidableEq, Repr

/-- `main` (src/main.rs:167-216), abstracted over the behaviour
`applyCutter` of the configured trimmers (their implementations live in
the crate modules absent from the available sources) and over the two
input streams.  The startup assertion is checked before either stream
is touched, exactly as in the source, where it precedes even the
opening of the input files. -/
def main_model (applyCutter : CutterCfg → FastqRecord → TrimResult)
    (args : Args) (stream1 stream2 : List LineRead) :
    Except MainError RunOutput :=
  if xor args.preview args.out_fastq1.isSome = false then
    .error .startupConflict
  else
    match decodeStream stream1 with
    | .error _ => .error .decodeAssert
    | .ok reads1 =>
      let cutters := (mainCutters args).map applyCutter
      if args.fastq2.isSome then
        match decodeStream stream2 with
        | .error _ => .error .decodeAssert
        | .ok reads2 =>
          let out := paired_end reads1 reads2 cutters
            args.minimum_remaining_read_size
          match out.error with
          | some n => .error (.desync n)
          | none => .ok (.paired out.emitted)
      else
        .ok (.single (single_end reads1 cutters
          args.minimum_remaining_read_size))

/-! ## Spec-modelled quality-window trimming (§4.1; the `BackTrimmer`
and `FrontBackTrimmer` implementations live in the crate module absent
from the available sources) -/

/-- Modelled from the spec: a window of quality values fails when the
average of `(quality_value - quality_origin)` falls below
`min_avg_quality`, i.e. when the sum of the rebased values is below
`min · window length`. -/
def windowAvgFails (qual_score_base window_min_qual_score : Nat)
    (ws : List Nat) : Bool :=
  (ws.map (fun q => q - qual_score_base)).sum
    < window_min_qual_score * ws.length

/-- Modelled from the spec: the tail-only scan — sliding windows of
`window_size` consecutive quality values, scanned inward from the 3′
end; the first (rightmost-starting) failing window is cut together with
everything after it.  A record shorter than the window is treated as a
single window. -/
def backWindowCut (window_size window_min_qual_score qual_score_base : Nat)
    (quals : List Nat) : Nat :=
  if quals.length < window_size then
    if windowAvgFails qual_score_base window_min_qual_score quals then
      quals.length
    else 0
  else
    match (List.range (quals.length - window_size + 1)).reverse.find?
        (fun s => windowAvgFails qual_score_base window_min_qual_score
          ((quals.drop s).take window_size)) with
    | some s => quals.length - s
    | none => 0

/-- Modelled from the spec: the same scan from the 5′ end — the first
(leftmost-starting) failing window is cut together with everything
before it. -/
def frontWindowCut (window_size window_min_qual_score qual_score_base : Nat)
    (quals : List Nat) : Nat :=
  if quals.length < window_size then
    if windowAvgFails qual_score_base window_min_qual_score quals then
      quals.length
    else 0
  else
    match (List.range (quals.length - window_size + 1)).find?
        (fun s => windowAvgFails qual_score_base window_min_qual_score
          ((quals.drop s).take window_size)) with
    | some s => s + window_size
    | none => 0

/-- Modelled from the spec: `BackTrimmer::trim`, the tail-only
quality-window variant — it proposes only a back cut, never a front
cut, a drop or a split. -/
def backTrimmerTrim (window_size window_min_qual_score qual_score_base : Nat)
    (read : FastqRecord) : TrimResult :=
  ⟨0, backWindowCut window_size window_min_qual_score qual_score_base
      read.quals, none, false⟩

/-- Modelled from the spec: `FrontBackTrimmer::trim`, the head-and-tail
quality-window variant — the independent 5′ and 3′ scans give the front
and back cuts; never a drop or a split. -/
def frontBackTrimmerTrim
    (window_size window_min_qual_score qual_score_base : Nat)
    (read : FastqRecord) : TrimResult :=
  ⟨frontWindowCut window_size window_min_qual_score qual_score_base
      read.quals,
    backWindowCut window_size window_min_qual_score qual_score_base
      read.quals, none, false⟩

/-! ## Claims -/

/-- C1: Composing the same set of Trim Proposals in any order yields the
same Decision: for every pair of proposals A and B, composing `[A, B]`
and `[B, A]` produce identical `front_cut`, `back_cut` and `keep`
values, and the merge used by the driver's per-record fold is
associative. -/
theorem C1_compose_order_independent_merge_assoc :
    (∀ A B : TrimResult,
      (TrimResult.join [A, B]).front_cut = (TrimResult.join [B, A]).front_cut
      ∧ (TrimResult.join [A, B]).back_cut = (TrimResult.join [B, A]).back_cut
      ∧ (TrimResult.join [A, B]).keep = (TrimResult.join [B, A]).keep)
    ∧ (∀ A B C : TrimResult,
      TrimResult.merge (TrimResult.merge A B) C
        = TrimResult.merge A (TrimResult.merge B C)) := by
  constructor
  · intro A B
    simp only [TrimResult.join, List.foldl, TrimResult.merge, TrimResult.keep]
    refine ⟨by simp [Nat.max_comm], by simp [Nat.max_comm], ?_⟩
    cases hA : A.split_point <;> cases hB : B.split_point <;>
      simp [Option.or] <;> cases A.drop <;> cases B.drop <;> simp
  · intro A B C
    simp [TrimResult.merge, Nat.max_assoc, Bool.or_assoc, Option.or_assoc]

/-- C2: In every paired-end iteration, after independently composing
and materializing a Decision for each mate, the run terminates with a
fatal error whenever the two mates produce unequal numbers of output
fragments (no pair of this or any later iteration is emitted); when the
counts are equal, processing continues normally with the
length-filtered fragment pairs of this iteration followed by the rest
of the run. -/
theorem C2_paired_fragment_count_check
    (read1 read2 : FastqRecord) (rest1 rest2 : List FastqRecord)
    (cutters : List (FastqRecord → TrimResult)) (m : Nat) :
    (((composeCuts cutters read1).trim_results_to_reads read1).length ≠
        ((composeCuts cutters read2).trim_results_to_reads read2).length →
      paired_end (read1 :: rest1) (read2 :: rest2) cutters m
        = ⟨[], some read1.name⟩)
    ∧ (((composeCuts cutters read1).trim_results_to_reads read1).length =
        ((composeCuts cutters read2).trim_results_to_reads read2).length →
      paired_end (read1 :: rest1) (read2 :: rest2) cutters m
        = ⟨((((composeCuts cutters read1).trim_results_to_reads read1).zip
              ((composeCuts cutters read2).trim_results_to_reads read2)).filter
              (fun pr => m ≤ pr.1.seq.length && m ≤ pr.2.seq.length))
            ++ (paired_end rest1 rest2 cutters m).emitted,
           (paired_end rest1 rest2 cutters m).error⟩) := by
  constructor <;> intro h <;> simp [paired_end, h]

/-- C2, instantiated: a cutter that drops mate 1 only (fragment counts
0 vs 1) aborts the iteration with the desynchronization panic, and with
no cutters (counts 1 vs 1) the sole surviving pair is emitted. -/
theorem C2_paired_fragment_count_check_witness :
    paired_end [⟨[64], [1], [5]⟩] [⟨[64], [2], [5]⟩]
        [fun r => if r.seq = [1] then ⟨0, 0, none, true⟩
          else ⟨0, 0, none, false⟩] 0
      = ⟨[], some [64]⟩
    ∧ paired_end [⟨[64], [2], [5]⟩] [⟨[64], [2], [5]⟩] [] 1
      = ⟨[(⟨[64], [2], [5]⟩, ⟨[64], [2], [5]⟩)], none⟩ := by
  constructor
  · exact (C2_paired_fragment_count_check ⟨[64], [1], [5]⟩ ⟨[64], [2], [5]⟩
      [] [] [fun r => if r.seq = [1] then ⟨0, 0, none, true⟩
        else ⟨0, 0, none, false⟩] 0).1 (by decide)
  · have := (C2_paired_fragment_count_check ⟨[64], [2], [5]⟩
      ⟨[64], [2], [5]⟩ [] [] [] 1).2 (by decide)
    rw [this]; decide

/-- When the second stream has fewer records than the first, the paired
driver always ends in a panic (either the stream-exhaustion panic or an
earlier fragment-count panic). -/
lemma paired_end_error_of_shorter :
    ∀ (reads2 reads1 : List FastqRecord)
      (cutters : List (FastqRecord → TrimResult)) (m : Nat),
    reads2.length < reads1.length →
    ((paired_end reads1 reads2 cutters m).error).isSome = true := by
  intro reads2
  induction reads2 with
  | nil =>
    intro reads1 cutters m h
    match reads1 with
    | [] => simp at h
    | r1 :: rest1 => simp [paired_end]
  | cons r2 rest2 ih =>
    intro reads1 cutters m h
    match reads1 with
    | [] => simp at h
    | r1 :: rest1 =>
      by_cases hc : ((composeCuts cutters r1).trim_results_to_reads r1).length
          = ((composeCuts cutters r2).trim_results_to_reads r2).length
      · simp only [List.length_cons] at h
        simp [paired_end, hc]
        exact ih rest1 cutters m (by omega)
      · simp [paired_end, hc]

/-- The pairs emitted by a paired run are exactly those of the run on
the matched prefix of the first stream: nothing is emitted for records
of stream 1 beyond the length of stream 2. -/
lemma paired_end_emitted_take :
    ∀ (reads2 reads1 : List FastqRecord)
      (cutters : List (FastqRecord → TrimResult)) (m : Nat),
    reads2.length ≤ reads1.length →
    (paired_end reads1 reads2 cutters m).emitted
      = (paired_end (reads1.take reads2.length) reads2 cutters m).emitted := by
  intro reads2
  induction reads2 with
  | nil =>
    intro reads1 cutters m _
    match reads1 with
    | [] => rfl
    | r1 :: rest1 => simp [paired_end]
  | cons r2 rest2 ih =>
    intro reads1 cutters m h
    match reads1 with
    | [] => simp at h
    | r1 :: rest1 =>
      simp only [List.length_cons, List.take_succ_cons]
      by_cases hc : ((composeCuts cutters r1).trim_results_to_reads r1).length
          = ((composeCuts cutters r2).trim_results_to_reads r2).length
      · simp only [List.length_cons] at h
        simp [paired_end, hc]
        exact ih rest1 cutters m (by omega)
      · simp [paired_end, hc]

/-- Records of the second stream beyond the length of the first are
never observed: the run equals the run on the truncated second
stream. -/
lemma paired_end_take_right :
    ∀ (reads1 reads2 : List FastqRecord)
      (cutters : List (FastqRecord → TrimResult)) (m : Nat),
    reads1.length ≤ reads2.length →
    paired_end reads1 reads2 cutters m
      = paired_end reads1 (reads2.take reads1.length) cutters m := by
  intro reads1
  induction reads1 with
  | nil => intro reads2 cutters m _; rfl
  | cons r1 rest1 ih =>
    intro reads2 cutters m h
    match reads2 with
    | [] => simp at h
    | r2 :: rest2 =>
      simp only [List.length_cons, List.take_succ_cons]
      by_cases hc : ((composeCuts cutters r1).trim_results_to_reads r1).length
          = ((composeCuts cutters r2).trim_results_to_reads r2).length
      · simp only [List.length_cons] at h
        simp [paired_end, hc]
        rw [ih rest2 cutters m (by omega)]
        exact ⟨rfl, rfl⟩
      · simp [paired_end, hc]

/-- C3: For every paired-end run in which the second stream is
exhausted while the first still yields a record, the run ends in a
fatal desynchronization panic, and the emitted pairs are exactly those
of the matched prefix — no output for the unmatched tail of the first
stream. -/
theorem C3_second_stream_exhaustion_fatal
    (reads1 reads2 : List FastqRecord)
    (cutters : List (FastqRecord → TrimResult)) (m : Nat)
    (h : reads2.length < reads1.length) :
    ((paired_end reads1 reads2 cutters m).error).isSome = true
    ∧ (paired_end reads1 reads2 cutters m).emitted
      = (paired_end (reads1.take reads2.length) reads2 cutters m).emitted :=
  ⟨paired_end_error_of_shorter reads2 reads1 cutters m h,
   paired_end_emitted_take reads2 reads1 cutters m (Nat.le_of_lt h)⟩

/-- C3, instantiated: two records against one, no cutters — the run
panics and emits only what the one matched pair produced. -/
theorem C3_second_stream_exhaustion_fatal_witness :
    ((paired_end [⟨[64], [1], [5]⟩, ⟨[64], [1], [5]⟩] [⟨[64], [1], [5]⟩]
        [] 0).error).isSome = true
    ∧ (paired_end [⟨[64], [1], [5]⟩, ⟨[64], [1], [5]⟩] [⟨[64], [1], [5]⟩]
        [] 0).emitted
      = (paired_end ([⟨[64], [1], [5]⟩, ⟨[64], [1], [5]⟩].take 1)
          [⟨[64], [1], [5]⟩] [] 0).emitted :=
  C3_second_stream_exhaustion_fatal
    [⟨[64], [1], [5]⟩, ⟨[64], [1], [5]⟩] [⟨[64], [1], [5]⟩] [] 0
    (by decide)

/-- C4 fails on the code: a one-record first stream against a
two-record second stream is a record-count disagreement, yet the run
completes normally — it emits the one matched pair and raises no error
(the `while let` loop of `paired_end` simply ends when stream 1 is
exhausted, never checking whether stream 2 still has records). -/
theorem C4_counterexample :
    ([(⟨[64], [1], [5]⟩ : FastqRecord)]).length
      ≠ [(⟨[64], [1], [5]⟩ : FastqRecord), ⟨[64], [2], [6]⟩].length
    ∧ paired_end [⟨[64], [1], [5]⟩] [⟨[64], [1], [5]⟩, ⟨[64], [2], [6]⟩]
        [] 0
      = ⟨[(⟨[64], [1], [5]⟩, ⟨[64], [1], [5]⟩)], none⟩ := by
  constructor
  · decide
  · rfl

/-- C4 (amended): a record-count disagreement is fatal only when the
second stream is the one that runs out first; when the first stream is
the shorter one, the excess records of the second stream are never
observed — the run behaves exactly as on the truncated second stream
and raises no record-count error. -/
theorem C4_desync_only_when_second_stream_shorter
    (reads1 reads2 : List FastqRecord)
    (cutters : List (FastqRecord → TrimResult)) (m : Nat) :
    (reads2.length < reads1.length →
      ((paired_end reads1 reads2 cutters m).error).isSome = true)
    ∧ (reads1.length ≤ reads2.length →
      paired_end reads1 reads2 cutters m
        = paired_end reads1 (reads2.take reads1.length) cutters m) :=
  ⟨paired_end_error_of_shorter reads2 reads1 cutters m,
   paired_end_take_right reads1 reads2 cutters m⟩

/-- C4 (amended), instantiated: a missing second record panics, while a
surplus second record is silently ignored. -/
theorem C4_desync_only_when_second_stream_shorter_witness :
    ((paired_end [⟨[64], [1], [5]⟩, ⟨[64], [1], [5]⟩] [⟨[64], [1], [5]⟩]
        [] 0).error).isSome = true
    ∧ paired_end [⟨[64], [1], [5]⟩]
        [⟨[64], [1], [5]⟩, ⟨[64], [2], [6]⟩] [] 0
      = paired_end [⟨[64], [1], [5]⟩]
          ([⟨[64], [1], [5]⟩, ⟨[64], [2], [6]⟩].take 1) [] 0 :=
  ⟨(C4_desync_only_when_second_stream_shorter
      [⟨[64], [1], [5]⟩, ⟨[64], [1], [5]⟩] [⟨[64], [1], [5]⟩] [] 0).1
      (by decide),
   (C4_desync_only_when_second_stream_shorter [⟨[64], [1], [5]⟩]
      [⟨[64], [1], [5]⟩, ⟨[64], [2], [6]⟩] [] 0).2 (by decide)⟩

/-- C5: In a paired-end iteration with equal fragment counts, the
emitted pairs of that iteration are exactly the positionally matched
fragment pairs in which both sides meet the minimum-length filter: a
pair is kept if and only if both fragments are long enough, so a short
fragment discards its mate as well and the output stays 1:1 paired. -/
theorem C5_pair_emitted_iff_both_long_enough
    (read1 read2 : FastqRecord) (rest1 rest2 : List FastqRecord)
    (cutters : List (FastqRecord → TrimResult)) (m : Nat)
    (h : ((composeCuts cutters read1).trim_results_to_reads read1).length
      = ((composeCuts cutters read2).trim_results_to_reads read2).length) :
    paired_end (read1 :: rest1) (read2 :: rest2) cutters m
      = ⟨((((composeCuts cutters read1).trim_results_to_reads read1).zip
            ((composeCuts cutters read2).trim_results_to_reads read2)).filter
            (fun pr => m ≤ pr.1.seq.length && m ≤ pr.2.seq.length))
          ++ (paired_end rest1 rest2 cutters m).emitted,
         (paired_end rest1 rest2 cutters m).error⟩
    ∧ ∀ pr ∈ (((composeCuts cutters read1).trim_results_to_reads read1).zip
        ((composeCuts cutters read2).trim_results_to_reads read2)),
      (pr ∈ ((((composeCuts cutters read1).trim_results_to_reads read1).zip
          ((composeCuts cutters read2).trim_results_to_reads read2)).filter
          (fun pr => m ≤ pr.1.seq.length && m ≤ pr.2.seq.length))
        ↔ (m ≤ pr.1.seq.length ∧ m ≤ pr.2.seq.length)) := by
  constructor
  · simp [paired_end, h]
  · intro pr hmem
    simp [List.mem_filter, hmem]

/-- C5, instantiated: with no cutters and minimum length 2, a
one-symbol mate-1 fragment discards the pair even though its mate-2
fragment is long enough — nothing is written on either side. -/
theorem C5_pair_emitted_iff_both_long_enough_witness :
    paired_end [⟨[64], [7], [9]⟩] [⟨[64], [7, 7], [9, 9]⟩] [] 2
      = ⟨[], none⟩ := by
  have := (C5_pair_emitted_iff_both_long_enough ⟨[64], [7], [9]⟩
    ⟨[64], [7, 7], [9, 9]⟩ [] [] [] 2 (by decide)).1
  rw [this]; decide

/-- C6 fails on the code: a stream holding a single identifier line and
then ending (the sequence, orientation and quality lines are missing)
is not treated as end-of-stream — `read_line` reports end of file as a
successful empty read, so the decoder returns a truncated record with
empty sequence and qualities instead of `None`. -/
theorem C6_counterexample :
    fastqNext [.lineOk [64, 114, 10]]
      = .ok (some ⟨[64, 114], [], []⟩, []) := by
  rfl

/-- C6 (amended): only a failing line read (an I/O or encoding error,
`Err` from `read_line`) at any of the four positions of a record makes
the decoder silently return end-of-stream, abandoning that record with
the rest of the stream unread by its caller; a stream that merely ends
mid-record instead yields a truncated record with empty missing fields,
and an identifier line not starting with `@` is a hard assertion
failure, not a silent end-of-stream. -/
theorem C6_read_error_is_silent_end_of_stream
    (rest : List LineRead) (n s o : List Nat)
    (hn : n ≠ []) (hh : n.head? = some 64) :
    fastqNext (.lineErr :: rest) = .ok (none, rest)
    ∧ fastqNext (.lineOk n :: .lineErr :: rest) = .ok (none, rest)
    ∧ fastqNext (.lineOk n :: .lineOk s :: .lineErr :: rest)
      = .ok (none, rest)
    ∧ fastqNext (.lineOk n :: .lineOk s :: .lineOk o :: .lineErr :: rest)
      = .ok (none, rest) := by
  refine ⟨rfl, ?_, ?_, ?_⟩ <;> simp [fastqNext, readLine, hn, hh]

/-- C6 (amended), instantiated at a concrete record prefix. -/
theorem C6_read_error_is_silent_end_of_stream_witness :
    fastqNext [.lineErr] = .ok (none, [])
    ∧ fastqNext [.lineOk [64], .lineErr] = .ok (none, [])
    ∧ fastqNext [.lineOk [64], .lineOk [1], .lineErr] = .ok (none, [])
    ∧ fastqNext [.lineOk [64], .lineOk [1], .lineOk [2], .lineErr]
      = .ok (none, []) :=
  C6_read_error_is_silent_end_of_stream [] [64] [1] [2]
    (by decide) (by decide)

/-- C7: The quality-window trimmers are configured with a quality
origin one less than the minimum the rendering helper accepts: the
window cutter `main` installs (in either mode) carries
`qual_score_base = 32`, while `color_qual_proportion` asserts every
quality value is at least `32 + 1 = 33`, rejecting anything below. -/
theorem C7_quality_origin_off_by_one (args : Args) :
    (windowCutter args).qualScoreBase = some 32
    ∧ (∀ q : Nat, q < 32 + 1 → color_qual_proportion q = .error ())
    ∧ (∀ q : Nat, 32 + 1 ≤ q → ∃ v, color_qual_proportion q = .ok v) := by
  refine ⟨?_, ?_, ?_⟩
  · rw [windowCutter]; split <;> rfl
  · intro q hq
    rw [color_qual_proportion, if_pos (by omega)]
  · intro q hq
    rw [color_qual_proportion, if_neg (by omega)]
    exact ⟨_, rfl⟩

/-- C7, instantiated: the paired-mode configuration carries base 32,
quality 32 is rejected by the renderer and quality 33 is accepted. -/
theorem C7_quality_origin_off_by_one_witness :
    (windowCutter ⟨none, some ",", none, none, 10, 10, 10, false, false,
        10, 9 / 10, none, 1, 1 / 5, false, true⟩).qualScoreBase = some 32
    ∧ color_qual_proportion 32 = .error ()
    ∧ ∃ v, color_qual_proportion 33 = .ok v :=
  ⟨(C7_quality_origin_off_by_one _).1,
   (C7_quality_origin_off_by_one ⟨none, some ",", none, none, 10, 10, 10,
      false, false, 10, 9 / 10, none, 1, 1 / 5, false, true⟩).2.1 32
      (by decide),
   (C7_quality_origin_off_by_one ⟨none, some ",", none, none, 10, 10, 10,
      false, false, 10, 9 / 10, none, 1, 1 / 5, false, true⟩).2.2 33
      (by decide)⟩

/-- C8: Every record decoded from a well-formed four-line input record
(an identifier line starting with `@`, and sequence and quality lines
of equal raw length) satisfies the invariant that its symbol sequence
and its quality sequence have equal length. -/
theorem C8_decoded_record_lengths_match
    (n s o q : List Nat) (rest : List LineRead)
    (hn : n ≠ []) (hh : n.head? = some 64) (hlen : s.length = q.length) :
    ∃ rec : FastqRecord,
      fastqNext (.lineOk n :: .lineOk s :: .lineOk o :: .lineOk q :: rest)
        = .ok (some rec, rest)
      ∧ rec.seq.length = rec.quals.length := by
  refine ⟨⟨n.dropLast, s.dropLast, q.dropLast⟩, ?_, ?_⟩
  · simp [fastqNext, readLine, hn, hh]
  · simp [hlen]

/-- C8, instantiated at a concrete well-formed record. -/
theorem C8_decoded_record_lengths_match_witness :
    ∃ rec : FastqRecord,
      fastqNext [.lineOk [64, 114, 10], .lineOk [65, 67, 10],
          .lineOk [43, 10], .lineOk [73, 74, 10]]
        = .ok (some rec, [])
      ∧ rec.seq.length = rec.quals.length :=
  C8_decoded_record_lengths_match [64, 114, 10] [65, 67, 10] [43, 10]
    [73, 74, 10] [] (by decide) (by decide) (by decide)

/-- C9: If preview mode and the materialized-output destination are
both selected, or both omitted, the run fails at startup with the
configuration-conflict panic — for every input stream pair, before any
record is read; when exactly one of the two is selected, that startup
failure never occurs. -/
theorem C9_preview_xor_output_required
    (applyCutter : CutterCfg → FastqRecord → TrimResult) (args : Args)
    (stream1 stream2 : List LineRead) :
    (((args.preview = true ∧ args.out_fastq1.isSome = true)
        ∨ (args.preview = false ∧ args.out_fastq1 = none)) →
      main_model applyCutter args stream1 stream2
        = .error .startupConflict)
    ∧ (((args.preview = true ∧ args.out_fastq1 = none)
        ∨ (args.preview = false ∧ args.out_fastq1.isSome = true)) →
      main_model applyCutter args stream1 stream2
        ≠ .error .startupConflict) := by
  constructor
  · rintro (⟨hp, ho⟩ | ⟨hp, ho⟩) <;> rw [main_model] <;> simp [hp, ho]
  · rintro (⟨hp, ho⟩ | ⟨hp, ho⟩) <;> rw [main_model] <;> simp [hp, ho] <;>
      rcases decodeStream stream1 with e | reads1 <;> simp <;>
      rcases h2 : args.fastq2.isSome <;> simp [h2] <;>
      rcases decodeStream stream2 with e2 | reads2 <;> simp <;>
      rcases (paired_end reads1 reads2 ((mainCutters args).map applyCutter)
        args.minimum_remaining_read_size).error <;> simp

/-- C9, instantiated: preview together with an output path aborts at
startup; preview alone proceeds past the startup check. -/
theorem C9_preview_xor_output_required_witness :
    main_model (fun _ _ => ⟨0, 0, none, false⟩)
        ⟨none, none, some ",", none, 10, 10, 10, false, false, 10,
          9 / 10, none, 1, 1 / 5, false, true⟩ [] []
      = .error .startupConflict
    ∧ main_model (fun _ _ => ⟨0, 0, none, false⟩)
        ⟨none, none, none, none, 10, 10, 10, false, false, 10,
          9 / 10, none, 1, 1 / 5, false, true⟩ [] []
      ≠ .error .startupConflict :=
  ⟨(C9_preview_xor_output_required (fun _ _ => ⟨0, 0, none, false⟩)
      ⟨none, none, some ",", none, 10, 10, 10, false, false, 10,
        9 / 10, none, 1, 1 / 5, false, true⟩ [] []).1
      (Or.inl ⟨rfl, rfl⟩),
   (C9_preview_xor_output_required (fun _ _ => ⟨0, 0, none, false⟩)
      ⟨none, none, none, none, 10, 10, 10, false, false, 10,
        9 / 10, none, 1, 1 / 5, false, true⟩ [] []).2
      (Or.inl ⟨rfl, rfl⟩)⟩

/-- C10: The quality-window variant is selected by the run mode alone:
with a second input file `main` installs only the tail-only
`BackTrimmer` (no head+tail variant anywhere in the cutter list), so
quality-window trimming proposes no front cut, no drop and no split in
paired mode; without a second input file `main` installs only the
head+tail `FrontBackTrimmer`.  No configuration flag touches this
choice. -/
theorem C10_window_variant_fixed_by_mode (args : Args) :
    (args.fastq2.isSome = true →
      windowCutter args
        = .back args.window_size args.window_min_qual_score 32
      ∧ ∀ w q b, CutterCfg.frontBack w q b ∉ mainCutters args)
    ∧ (args.fastq2.isSome = false →
      windowCutter args
        = .frontBack args.window_size args.window_min_qual_score 32
      ∧ ∀ w q b, CutterCfg.back w q b ∉ mainCutters args)
    ∧ ∀ (w q b : Nat) (read : FastqRecord),
      (backTrimmerTrim w q b read).front_cut = 0
      ∧ (backTrimmerTrim w q b read).split_point = none
      ∧ (backTrimmerTrim w q b read).drop = false := by
  refine ⟨?_, ?_, fun w q b read => ⟨rfl, rfl, rfl⟩⟩ <;>
    intro hmode <;>
    refine ⟨by rw [windowCutter]; simp [hmode], ?_⟩ <;>
    intro w q b hmem <;>
    rcases hpr : args.primers with _ | ps <;>
    rcases hpa : args.trim_poly_a <;>
    rcases hpg : args.trim_poly_g <;>
    simp [mainCutters, windowCutter, hmode, hpr, hpa, hpg] at hmem

/-- C10, instantiated: a paired configuration yields the tail-only
variant, a single-end one the head+tail variant, and the tail-only
trimmer's proposal on a concrete read has a zero front cut. -/
theorem C10_window_variant_fixed_by_mode_witness :
    windowCutter ⟨none, some ",", none, none, 10, 10, 10, false, false,
        10, 9 / 10, none, 1, 1 / 5, false, true⟩
      = .back 10 10 32
    ∧ windowCutter ⟨none, none, none, none, 10, 10, 10, false, false,
        10, 9 / 10, none, 1, 1 / 5, false, true⟩
      = .frontBack 10 10 32
    ∧ (backTrimmerTrim 10 10 32 ⟨[64], [65, 67], [40, 41]⟩).front_cut
      = 0 :=
  ⟨((C10_window_variant_fixed_by_mode ⟨none, some ",", none, none, 10, 10,
      10, false, false, 10, 9 / 10, none, 1, 1 / 5, false, true⟩).1
      rfl).1,
   ((C10_window_variant_fixed_by_mode ⟨none, none, none, none, 10, 10,
      10, false, false, 10, 9 / 10, none, 1, 1 / 5, false, true⟩).2.1
      rfl).1,
   ((C10_window_variant_fixed_by_mode ⟨none, some ",", none, none, 10, 10,
      10, false, false, 10, 9 / 10, none, 1, 1 / 5, false, true⟩).2.2
      10 10 32 ⟨[64], [65, 67], [40, 41]⟩).1⟩

end Butcher
